import Mathlib

/-!
Shallow embedding of the TerraWing coordination core.

Source files embedded:
- `src/terrawing/core/uav_controller.py`: the per-vehicle flight state
  machine (`UAVController`).
- `src/terrawing/core/drone_coordinator.py`: the fleet coordinator
  (`DroneCoordinator`).

Python floats are modelled as rationals (all the operations involved are
arithmetic and order comparisons, which the claims use exactly).
Python dicts (insertion-ordered) are modelled as insertion-ordered lists.
Operations that in Python mutate `self` are modelled as functions from the
state to `Bool × state` (the returned `bool`, and the new state).

`land`, `emergency_stop` and `update_battery` additionally return the list
of `flight_status` values assigned during the call, in assignment order,
so that "passes through `emergency`" is expressible; this trace is pure
instrumentation and does not influence the resulting state.
-/

namespace TerraWing

/-- `uav_controller.FlightMode`. -/
inductive FlightMode
  | idle | manual | auto | waypoint | rtl | landing
  deriving DecidableEq

/-- `uav_controller.FlightStatus`. -/
inductive FlightStatus
  | grounded | takingOff | flying | hovering | landing | emergency
  deriving DecidableEq

/-- `uav_controller.UAVState`.  `obstacles_detected` (a list of opaque
dicts in the source, never read or written by any modelled operation) is
modelled as a list of opaque tags. -/
structure UAVState where
  position : ℚ × ℚ × ℚ
  velocity : ℚ × ℚ × ℚ
  orientation : ℚ × ℚ × ℚ
  battery_level : ℚ
  flight_mode : FlightMode
  flight_status : FlightStatus
  is_armed : Bool
  obstacles_detected : List String
  deriving DecidableEq

/-- The safety parameters read from `config` in `UAVController.__init__`,
with the source defaults. -/
structure UAVConfig where
  min_altitude : ℚ := 5
  max_altitude : ℚ := 120
  safe_battery : ℚ := 20
  emergency_battery : ℚ := 10
  deriving DecidableEq

/-- `UAVController.arm`. -/
def arm (cfg : UAVConfig) (s : UAVState) : Bool × UAVState :=
  if s.battery_level < cfg.safe_battery then (false, s)
  else if s.is_armed then (true, s)
  else (true, { s with is_armed := true })

/-- `UAVController.disarm`. -/
def disarm (s : UAVState) : Bool × UAVState :=
  if s.flight_status = FlightStatus.grounded ∨ s.flight_status = FlightStatus.landing then
    (true, { s with is_armed := false, flight_mode := FlightMode.idle })
  else (false, s)

/-- `UAVController.takeoff`.  The source assigns `TAKING_OFF` and then
immediately `HOVERING` ("simulate reaching altitude"); the resulting state
is the one after both assignments. -/
def takeoff (cfg : UAVConfig) (s : UAVState) (target_altitude : ℚ) : Bool × UAVState :=
  if s.is_armed = false then (false, s)
  else if target_altitude < cfg.min_altitude ∨ cfg.max_altitude < target_altitude then
    (false, s)
  else
    (true, { s with
      flight_status := FlightStatus.hovering,
      flight_mode := FlightMode.auto,
      position := (s.position.1, s.position.2.1, target_altitude) })

/-- `UAVController.land`.  The source always returns `True`; we return the
resulting state together with the trace of `flight_status` assignments
(`[LANDING, GROUNDED]`, or `[]` when already grounded). -/
def land (s : UAVState) : UAVState × List FlightStatus :=
  if s.flight_status = FlightStatus.grounded then (s, [])
  else
    ({ s with
        position := (s.position.1, s.position.2.1, 0),
        flight_status := FlightStatus.grounded,
        flight_mode := FlightMode.idle },
     [FlightStatus.landing, FlightStatus.grounded])

/-- `UAVController.set_flight_mode`. -/
def set_flight_mode (s : UAVState) (mode : FlightMode) : Bool × UAVState :=
  if s.is_armed = false ∧ mode ≠ FlightMode.idle then (false, s)
  else (true, { s with flight_mode := mode })

/-- `UAVController.navigate_to`. -/
def navigate_to (cfg : UAVConfig) (s : UAVState) (lat lon alt : ℚ) : Bool × UAVState :=
  if s.flight_status = FlightStatus.flying ∨ s.flight_status = FlightStatus.hovering then
    if alt < cfg.min_altitude ∨ cfg.max_altitude < alt then (false, s)
    else (true, { s with position := (lat, lon, alt), flight_status := FlightStatus.flying })
  else (false, s)

/-- `UAVController.emergency_stop`: assigns `EMERGENCY` and `RTL`, then
calls `land`.  Note the source never touches `is_armed` here. -/
def emergency_stop (s : UAVState) : UAVState × List FlightStatus :=
  let p := land { s with
    flight_status := FlightStatus.emergency, flight_mode := FlightMode.rtl }
  (p.1, FlightStatus.emergency :: p.2)

/-- The clamp `max(0.0, min(100.0, level))` in `UAVController.update_battery`. -/
def clampBattery (level : ℚ) : ℚ := max 0 (min 100 level)

/-- `UAVController.update_battery`: clamps the level, and when the clamped
level is below `emergency_land_battery` and the vehicle is not grounded,
triggers `emergency_stop` (the low-battery `elif` branch only logs). -/
def update_battery (cfg : UAVConfig) (s : UAVState) (level : ℚ) :
    UAVState × List FlightStatus :=
  if clampBattery level < cfg.emergency_battery ∧
      s.flight_status ≠ FlightStatus.grounded then
    emergency_stop { s with battery_level := clampBattery level }
  else ({ s with battery_level := clampBattery level }, [])

/-- `drone_coordinator.TaskType`. -/
inductive TaskType
  | survey | patrol | monitoring | inspection | mapping | idle
  deriving DecidableEq

/-- `drone_coordinator.DroneInfo`. -/
structure DroneInfo where
  drone_id : String
  position : ℚ × ℚ × ℚ
  battery_level : ℚ
  status : String
  task : TaskType
  capabilities : List String
  last_update : ℚ
  deriving DecidableEq

/-- `drone_coordinator.Mission`.  `status` is an open string in the source
("pending", "active", "completed", "failed") and is kept as a string. -/
structure Mission where
  mission_id : String
  mission_type : TaskType
  area_bounds : ℚ × ℚ × ℚ × ℚ
  assigned_drones : List String
  priority : ℤ
  status : String
  created : ℚ
  deriving DecidableEq

/-- `drone_coordinator.DroneCoordinator`: configuration (source defaults)
plus the two insertion-ordered maps and the mission counter.  The Python
dicts keyed by id are modelled as insertion-ordered lists of records. -/
structure Coordinator where
  min_separation : ℚ := 10
  max_fleet_size : ℕ := 10
  heartbeat_timeout : ℚ := 30
  drones : List DroneInfo := []
  missions : List Mission := []
  mission_counter : ℕ := 0
  deriving DecidableEq

/-- `drone_id in self.drones`. -/
def hasDrone (c : Coordinator) (id : String) : Bool :=
  c.drones.any (fun d => d.drone_id == id)

/-- `self.drones.get(drone_id)`. -/
def findDrone (c : Coordinator) (id : String) : Option DroneInfo :=
  c.drones.find? (fun d => d.drone_id == id)

/-- `self.missions[mission_id]` lookup. -/
def findMission (c : Coordinator) (mid : String) : Option Mission :=
  c.missions.find? (fun m => m.mission_id == mid)

/-- `DroneCoordinator.register_drone`.  `time.time()` is passed in as `now`. -/
def register_drone (c : Coordinator) (id : String) (pos : ℚ × ℚ × ℚ)
    (capabilities : List String) (now : ℚ) : Bool × Coordinator :=
  if hasDrone c id then (false, c)
  else if c.max_fleet_size ≤ c.drones.length then (false, c)
  else
    (true, { c with drones := c.drones ++
      [{ drone_id := id, position := pos, battery_level := 100,
         status := "ready", task := TaskType.idle,
         capabilities := capabilities, last_update := now }] })

/-- `DroneCoordinator.unregister_drone`: removes the id from every
mission's `assigned_drones` (Python `list.remove` drops the first
occurrence, as `List.erase` does) and deletes the drone. -/
def unregister_drone (c : Coordinator) (id : String) : Bool × Coordinator :=
  if hasDrone c id then
    (true, { c with
      missions := c.missions.map (fun m =>
        { m with assigned_drones := m.assigned_drones.erase id }),
      drones := c.drones.filter (fun d => d.drone_id != id) })
  else (false, c)

/-- `DroneCoordinator.update_drone_state`.  Python truthiness: a position
triple is always truthy, `battery_level` is compared against `None`, and
an empty string status is falsy and therefore not applied. -/
def update_drone_state (c : Coordinator) (id : String)
    (pos : Option (ℚ × ℚ × ℚ)) (battery : Option ℚ) (status : Option String)
    (now : ℚ) : Bool × Coordinator :=
  if hasDrone c id then
    (true, { c with drones := c.drones.map (fun d =>
      if d.drone_id == id then
        let d1 := match pos with
          | some p => { d with position := p }
          | none => d
        let d2 := match battery with
          | some b => { d1 with battery_level := b }
          | none => d1
        let d3 := match status with
          | some st => if st == "" then d2 else { d2 with status := st }
          | none => d2
        { d3 with last_update := now }
      else d) })
  else (false, c)

/-- The mission-id format `f"MISSION-{counter:04d}"`. -/
def missionName (n : ℕ) : String :=
  let s := toString n
  "MISSION-" ++ String.mk (List.replicate (4 - s.length) ('0')) ++ s

/-- `DroneCoordinator.create_mission`. -/
def create_mission (c : Coordinator) (mtype : TaskType)
    (bounds : ℚ × ℚ × ℚ × ℚ) (priority : ℤ) (now : ℚ) : Mission × Coordinator :=
  let counter := c.mission_counter + 1
  let m : Mission :=
    { mission_id := missionName counter, mission_type := mtype,
      area_bounds := bounds, assigned_drones := [], priority := priority,
      status := "pending", created := now }
  (m, { c with mission_counter := counter, missions := c.missions ++ [m] })

/-- `DroneCoordinator.assign_mission`: mission lookup, then an atomic
existence check of all ids before any mutation; on success the mission's
`assigned_drones` and `status` are set and every listed drone's `task`
becomes the mission's type. -/
def assign_mission (c : Coordinator) (mid : String) (drone_ids : List String) :
    Bool × Coordinator :=
  match findMission c mid with
  | none => (false, c)
  | some m =>
    if drone_ids.all (fun v => hasDrone c v) then
      (true, { c with
        missions := c.missions.map (fun m2 =>
          if m2.mission_id == mid then
            { m2 with assigned_drones := drone_ids, status := "active" }
          else m2),
        drones := c.drones.map (fun d =>
          if drone_ids.contains d.drone_id then { d with task := m.mission_type }
          else d) })
    else (false, c)

/-- The availability filter in `DroneCoordinator.auto_assign_mission`:
`drone.status == "ready" and drone.task == TaskType.IDLE`. -/
def isAvailable (d : DroneInfo) : Bool :=
  d.status == "ready" && d.task == TaskType.idle

/-- `DroneCoordinator.auto_assign_mission`: picks the first available
drone in registry (insertion) order and delegates to `assign_mission`. -/
def auto_assign_mission (c : Coordinator) (mid : String) : Bool × Coordinator :=
  match findMission c mid with
  | none => (false, c)
  | some _ =>
    match (c.drones.filter isAvailable).map (fun d => d.drone_id) with
    | [] => (false, c)
    | v :: _ => assign_mission c mid [v]

/-- `DroneCoordinator.complete_mission`: sets the mission's status to
"completed" and resets `task` to idle for every drone listed in its
`assigned_drones` that is still registered (unregistered ids are skipped
by the `if drone_id in self.drones` guard). -/
def complete_mission (c : Coordinator) (mid : String) : Bool × Coordinator :=
  match findMission c mid with
  | none => (false, c)
  | some m =>
    (true, { c with
      missions := c.missions.map (fun m2 =>
        if m2.mission_id == mid then { m2 with status := "completed" } else m2),
      drones := c.drones.map (fun d =>
        if m.assigned_drones.contains d.drone_id then { d with task := TaskType.idle }
        else d) })

/-- The squared flat-earth separation of `calculate_separation`:
`dx = (lat1-lat2)*111320`, `dy = (lon1-lon2)*111320`, `dz = alt1-alt2`,
and the source returns `sqrt(dx^2+dy^2+dz^2)`.  We embed the square, which
determines the source's value exactly (the square root is monotone), and
compare against squared thresholds. -/
def sepSq (p1 p2 : ℚ × ℚ × ℚ) : ℚ :=
  let dx := (p1.1 - p2.1) * 111320
  let dy := (p1.2.1 - p2.2.1) * 111320
  let dz := p1.2.2 - p2.2.2
  dx * dx + dy * dy + dz * dz

/-- `DroneCoordinator.calculate_separation` (squared value; `none` when
either id is unregistered, as in the source). -/
def calculate_separation_sq (c : Coordinator) (id1 id2 : String) : Option ℚ :=
  match findDrone c id1, findDrone c id2 with
  | some d1, some d2 => some (sepSq d1.position d2.position)
  | _, _ => none

/-- The nested i<j loop of `DroneCoordinator.check_collision_risk` over a
list of drone ids.  The source's guard is `if distance and distance <
self.min_drone_separation`: Python truthiness makes a distance of exactly
`0.0` falsy, so such a pair is skipped; on squares (with the nonnegative
default threshold) this is `sq ≠ 0 ∧ sq < min_separation^2`. -/
def riskPairs (c : Coordinator) : List String → List (String × String × ℚ)
  | [] => []
  | id1 :: rest =>
    (rest.filterMap (fun id2 =>
      match calculate_separation_sq c id1 id2 with
      | none => none
      | some sq =>
        if sq ≠ 0 ∧ sq < c.min_separation * c.min_separation then some (id1, id2, sq)
        else none)) ++ riskPairs c rest

/-- `DroneCoordinator.check_collision_risk` (distances reported squared). -/
def check_collision_risk (c : Coordinator) : List (String × String × ℚ) :=
  riskPairs c (c.drones.map (fun d => d.drone_id))

/-- Python dict insert-or-overwrite: an existing key keeps its place and
gets the new value, a new key is appended. -/
def dictInsert (m : List (String × ℚ × ℚ)) (k : String) (v : ℚ × ℚ) :
    List (String × ℚ × ℚ) :=
  match m with
  | [] => [(k, v)]
  | (k0, v0) :: rest =>
    if k0 == k then (k0, v) :: rest else (k0, v0) :: dictInsert rest k v

/-- `DroneCoordinator.optimize_coverage`: empty result for zero drones,
otherwise `lat_step = (max_lat - min_lat) / (num_drones + 1)` and drone
`i` (0-based enumeration) is placed at `min_lat + (i+1)*lat_step`, with
longitude the midpoint of the bounds, building a dict keyed by drone id. -/
def optimize_coverage (bounds : ℚ × ℚ × ℚ × ℚ) (drone_ids : List String) :
    List (String × ℚ × ℚ) :=
  if drone_ids.length = 0 then []
  else
    let lat_step := (bounds.2.1 - bounds.1) / ((drone_ids.length : ℚ) + 1)
    let lon := (bounds.2.2.1 + bounds.2.2.2) / 2
    drone_ids.enum.foldl (fun acc iv =>
      dictInsert acc iv.2 (bounds.1 + ((iv.1 : ℚ) + 1) * lat_step, lon)) []

/-- The public mutating operations of the coordinator, for reachability
statements (`time.time()` values are operation arguments). -/
inductive Op
  | register (id : String) (pos : ℚ × ℚ × ℚ) (caps : List String) (now : ℚ)
  | unregister (id : String)
  | create (t : TaskType) (bounds : ℚ × ℚ × ℚ × ℚ) (priority : ℤ) (now : ℚ)
  | assign (mid : String) (ids : List String)
  | autoAssign (mid : String)
  | complete (mid : String)
  | telemetry (id : String) (pos : Option (ℚ × ℚ × ℚ)) (battery : Option ℚ)
      (status : Option String) (now : ℚ)

/-- Apply one public operation (discarding the returned flag/mission). -/
def applyOp (c : Coordinator) : Op → Coordinator
  | Op.register id pos caps now => (register_drone c id pos caps now).2
  | Op.unregister id => (unregister_drone c id).2
  | Op.create t b p now => (create_mission c t b p now).2
  | Op.assign mid ids => (assign_mission c mid ids).2
  | Op.autoAssign mid => (auto_assign_mission c mid).2
  | Op.complete mid => (complete_mission c mid).2
  | Op.telemetry id pos b st now => (update_drone_state c id pos b st now).2

/-- Run a sequence of public operations. -/
def run (c : Coordinator) (ops : List Op) : Coordinator :=
  ops.foldl applyOp c

/-- The coordinator state right after `__init__` with default config. -/
def initCoordinator : Coordinator := {}

/-- The task/assignment mutual-consistency property of the spec: every
registered vehicle's `task` equals the type of some mission currently
listing it in `assigned_drones`, or is idle and no active mission lists
it. -/
def taskConsistent (c : Coordinator) : Bool :=
  c.drones.all (fun d =>
    c.missions.any (fun m =>
      m.assigned_drones.contains d.drone_id && m.mission_type == d.task)
    || (d.task == TaskType.idle &&
        c.missions.all (fun m =>
          !(m.status == "active" && m.assigned_drones.contains d.drone_id))))

/-! Concrete states and operation sequences used as test inputs below. -/

/-- A freshly constructed `UAVState` (the dataclass defaults). -/
def uavBase : UAVState :=
  { position := (0, 0, 0), velocity := (0, 0, 0), orientation := (0, 0, 0),
    battery_level := 100, flight_mode := FlightMode.idle,
    flight_status := FlightStatus.grounded, is_armed := false,
    obstacles_detected := [] }

/-- An armed vehicle in flight with a healthy battery. -/
def flyingArmed : UAVState :=
  { uavBase with
    is_armed := true,
    flight_status := FlightStatus.flying,
    battery_level := 50,
    position := (1, 2, 30) }

/-- An armed, grounded vehicle whose battery (15) is below the default
safe-battery threshold (20). -/
def armedLowBattery : UAVState :=
  { uavBase with is_armed := true, battery_level := 15 }

/-- An armed vehicle in flight with a full battery. -/
def armedFlying : UAVState :=
  { uavBase with is_armed := true, flight_status := FlightStatus.flying }

/-- The registry record `register_drone` creates (battery 100, status
"ready", task idle). -/
def droneAt (id : String) (pos : ℚ × ℚ × ℚ) : DroneInfo :=
  { drone_id := id, position := pos, battery_level := 100, status := "ready",
    task := TaskType.idle, capabilities := [], last_update := 0 }

/-- Two drones registered at the same position: the state produced by
registering "A" and then "B" at (40, -75, 0). -/
def samePosPair : Coordinator :=
  { drones := [droneAt ("A") (40, -75, 0), droneAt ("B") (40, -75, 0)] }

/-- `create_mission`'s first mission (type survey), still pending. -/
def missionOne : Mission :=
  { mission_id := missionName 1, mission_type := TaskType.survey,
    area_bounds := (0, 1, 0, 1), assigned_drones := [], priority := 1,
    status := "pending", created := 0 }

/-- One registered drone "A" plus the pending mission `missionOne`. -/
def coordOneDrone : Coordinator :=
  { drones := [droneAt ("A") (0, 0, 0)], missions := [missionOne],
    mission_counter := 1 }

/-- `missionOne` after being assigned to "A". -/
def missionOneActive : Mission :=
  { missionOne with assigned_drones := ["A"], status := "active" }

/-- Drone "A" busy on the active `missionOneActive`. -/
def coordOneActive : Coordinator :=
  { drones := [{ droneAt ("A") (0, 0, 0) with task := TaskType.survey }],
    missions := [missionOneActive], mission_counter := 1 }

/-- An empty coordinator whose configured maximum fleet size is 1. -/
def coordCapOne : Coordinator := { max_fleet_size := 1 }

/-- Fill the size-1 fleet with a single registration. -/
def opsCapOne : List Op := [Op.register ("A") (0, 0, 0) [] 0]

/-- Register "A", assign it to a survey mission, reassign it to a patrol
mission, and complete the latter.  All operations succeed. -/
def opsReassign : List Op :=
  [ Op.register ("A") (0, 0, 0) [] 0,
    Op.create TaskType.survey (0, 1, 0, 1) 1 0,
    Op.assign ("MISSION-0001") ["A"],
    Op.create TaskType.patrol (0, 1, 0, 1) 1 0,
    Op.assign ("MISSION-0002") ["A"],
    Op.complete ("MISSION-0002") ]

/-!  Theorems.  -/

/-- C1 (as amended): a battery update whose clamped level is below the
emergency threshold, on a vehicle that is not grounded, triggers the
emergency stop: the resulting state is grounded having passed through the
`emergency` status, the flight mode ends at `idle`, the battery holds the
clamped level — and `is_armed` is left unchanged (the source never disarms
during an emergency stop). -/
theorem battery_emergency_grounds (cfg : UAVConfig) (s : UAVState) (level : ℚ)
    (hg : s.flight_status ≠ FlightStatus.grounded)
    (hl : clampBattery level < cfg.emergency_battery) :
    (update_battery cfg s level).1.flight_status = FlightStatus.grounded ∧
    (update_battery cfg s level).1.flight_mode = FlightMode.idle ∧
    (update_battery cfg s level).1.is_armed = s.is_armed ∧
    (update_battery cfg s level).1.battery_level = clampBattery level ∧
    FlightStatus.emergency ∈ (update_battery cfg s level).2 := by
  unfold update_battery
  rw [if_pos ⟨hl, hg⟩]
  unfold emergency_stop land
  simp

/-- Witness for C1: the airborne armed vehicle `flyingArmed` updated to
battery 5 (below the default threshold 10). -/
theorem battery_emergency_grounds_witness :
    (update_battery {} flyingArmed 5).1.flight_status = FlightStatus.grounded ∧
    (update_battery {} flyingArmed 5).1.flight_mode = FlightMode.idle ∧
    (update_battery {} flyingArmed 5).1.is_armed = flyingArmed.is_armed ∧
    (update_battery {} flyingArmed 5).1.battery_level = clampBattery 5 ∧
    FlightStatus.emergency ∈ (update_battery {} flyingArmed 5).2 :=
  battery_emergency_grounds {} flyingArmed 5 (by decide) (by decide)

/-- C1 counterexample: after the battery-triggered emergency stop of the
armed, flying vehicle `flyingArmed`, `is_armed` is still `true`, not
`false` as the claim states. -/
theorem battery_emergency_not_disarmed :
    ¬ ((update_battery {} flyingArmed 5).1.is_armed = false) := by decide

/-- C9 (as amended): on an already-armed vehicle, `arm` never changes the
state, and it returns success exactly when the battery is at or above the
safe-battery threshold — the battery check precedes the idempotent-success
path, so an armed vehicle with a low battery gets `false`. -/
theorem arm_idempotent_when_armed (cfg : UAVConfig) (s : UAVState)
    (h : s.is_armed = true) :
    (arm cfg s).2 = s ∧
    ((arm cfg s).1 = true ↔ cfg.safe_battery ≤ s.battery_level) := by
  rcases lt_or_le s.battery_level cfg.safe_battery with hb | hb
  · simp [arm, hb, not_le.mpr hb]
  · simp [arm, not_lt.mpr hb, h, hb]

/-- Witness for C9: the armed vehicle `flyingArmed` (battery 50 ≥ 20). -/
theorem arm_idempotent_when_armed_witness :
    (arm {} flyingArmed).2 = flyingArmed ∧
    ((arm {} flyingArmed).1 = true ↔
      ({} : UAVConfig).safe_battery ≤ flyingArmed.battery_level) :=
  arm_idempotent_when_armed {} flyingArmed (by decide)

/-- C9 counterexample: `arm` on the already-armed state `armedLowBattery`
(battery 15 < 20) does not return success with the state unchanged — it
returns `false`, because the battery check comes first. -/
theorem arm_already_armed_low_battery_fails :
    ¬ ((arm {} armedLowBattery).1 = true ∧
        (arm {} armedLowBattery).2 = armedLowBattery) := by decide

/-- C10: `takeoff` never inspects `flight_status`: for any armed state and
a target altitude within `[min_altitude, max_altitude]` it succeeds, and
leaves `flight_status = hovering`, `flight_mode = auto`, and the position's
altitude equal to the target. -/
theorem takeoff_ignores_flight_status (cfg : UAVConfig) (s : UAVState) (alt : ℚ)
    (h1 : s.is_armed = true) (h2 : cfg.min_altitude ≤ alt)
    (h3 : alt ≤ cfg.max_altitude) :
    (takeoff cfg s alt).1 = true ∧
    (takeoff cfg s alt).2.flight_status = FlightStatus.hovering ∧
    (takeoff cfg s alt).2.flight_mode = FlightMode.auto ∧
    (takeoff cfg s alt).2.position.2.2 = alt := by
  simp [takeoff, h1, not_lt.mpr h2, not_lt.mpr h3]

/-- Witness for C10: `takeoff` to 15 m on `armedFlying`, an armed vehicle
that is already flying (not grounded). -/
theorem takeoff_ignores_flight_status_witness :
    (takeoff {} armedFlying 15).1 = true ∧
    (takeoff {} armedFlying 15).2.flight_status = FlightStatus.hovering ∧
    (takeoff {} armedFlying 15).2.flight_mode = FlightMode.auto ∧
    (takeoff {} armedFlying 15).2.position.2.2 = 15 :=
  takeoff_ignores_flight_status {} armedFlying 15 (by decide) (by decide) (by decide)

/-- Updating the missions list pointwise with a function that keeps every
`mission_id` commutes with the id lookup. -/
theorem find_map_same_id (ms : List Mission) (mid : String) (f : Mission → Mission)
    (hf : ∀ m, (f m).mission_id = m.mission_id) :
    (ms.map (fun m2 => if m2.mission_id == mid then f m2 else m2)).find?
        (fun m2 => m2.mission_id == mid) =
      (ms.find? (fun m2 => m2.mission_id == mid)).map f := by
  induction ms with
  | nil => rfl
  | cons a t ih =>
    rw [List.map_cons]
    by_cases h : (a.mission_id == mid) = true
    · rw [if_pos h,
        @List.find?_cons_of_pos _ (fun m2 => m2.mission_id == mid) (f a) _
          (by simp [hf, h]),
        @List.find?_cons_of_pos _ (fun m2 => m2.mission_id == mid) a t h]
      rfl
    · rw [if_neg h,
        @List.find?_cons_of_neg _ (fun m2 => m2.mission_id == mid) a _ h,
        @List.find?_cons_of_neg _ (fun m2 => m2.mission_id == mid) a t h, ih]

/-- `assign_mission` on a known mission with every id registered: the
exact resulting state. -/
theorem assign_mission_found (c : Coordinator) (mid : String) (ids : List String)
    (m : Mission) (hm : findMission c mid = some m)
    (hall : ids.all (fun v => hasDrone c v) = true) :
    assign_mission c mid ids =
      (true, { c with
        missions := c.missions.map (fun m2 =>
          if m2.mission_id == mid then
            { m2 with assigned_drones := ids, status := "active" }
          else m2),
        drones := c.drones.map (fun d =>
          if ids.contains d.drone_id then { d with task := m.mission_type }
          else d) }) := by
  simp [assign_mission, hm, hall]

/-- `assign_mission` fails exactly on the guards, leaving the state as it
was. -/
theorem assign_mission_fails (c : Coordinator) (mid : String) (ids : List String) :
    (findMission c mid = none → assign_mission c mid ids = (false, c)) ∧
    (ids.all (fun v => hasDrone c v) = false → assign_mission c mid ids = (false, c)) := by
  constructor
  · intro h; simp [assign_mission, h]
  · intro h
    cases hm : findMission c mid with
    | none => simp [assign_mission, hm]
    | some m => simp [assign_mission, hm, h]

/-- C4: `assign_mission` is atomic.  If the mission id is unknown, or some
vehicle id in the list is unregistered, it returns `false` and the state
is exactly unchanged (so every vehicle's `task` and the mission's `status`
and `assigned_drones` are untouched, and a pending mission stays pending).
On success it returns `true`, the mission's `assigned_drones` becomes the
given list and its status "active" (all other mission fields kept), and a
vehicle's `task` becomes the mission's type exactly when its id is listed,
all other vehicles and fields unchanged. -/
theorem assign_mission_atomic (c : Coordinator) (mid : String) (ids : List String) :
    (findMission c mid = none → assign_mission c mid ids = (false, c)) ∧
    ((∃ v ∈ ids, hasDrone c v = false) → assign_mission c mid ids = (false, c)) ∧
    (∀ m, findMission c mid = some m → (∀ v ∈ ids, hasDrone c v = true) →
      (assign_mission c mid ids).1 = true ∧
      findMission (assign_mission c mid ids).2 mid =
        some { m with assigned_drones := ids, status := "active" } ∧
      (assign_mission c mid ids).2.drones = c.drones.map (fun d =>
        if ids.contains d.drone_id then { d with task := m.mission_type }
        else d) ∧
      (assign_mission c mid ids).2.missions = c.missions.map (fun m2 =>
        if m2.mission_id == mid then
          { m2 with assigned_drones := ids, status := "active" }
        else m2)) := by
  refine ⟨(assign_mission_fails c mid ids).1, ?_, ?_⟩
  · rintro ⟨v, hv, hnv⟩
    refine (assign_mission_fails c mid ids).2 ?_
    rcases h : ids.all (fun v => hasDrone c v) with _ | _
    · rfl
    · exact absurd (List.all_eq_true.mp h v hv) (by simp [hnv])
  · intro m hm hall
    have hall' : ids.all (fun v => hasDrone c v) = true :=
      List.all_eq_true.mpr hall
    have hm' : c.missions.find? (fun m2 => m2.mission_id == mid) = some m := hm
    rw [assign_mission_found c mid ids m hm hall']
    refine ⟨rfl, ?_, rfl, rfl⟩
    show (c.missions.map (fun m2 =>
        if m2.mission_id == mid then
          { m2 with assigned_drones := ids, status := "active" }
        else m2)).find? (fun m2 => m2.mission_id == mid) = _
    rw [find_map_same_id c.missions mid (fun m2 =>
        { m2 with assigned_drones := ids, status := "active" })
        (fun m2 => rfl), hm']
    rfl

/-- Witness for C4: assigning "A" to the pending `missionOne` in
`coordOneDrone` succeeds. -/
theorem assign_mission_atomic_witness :
    (assign_mission coordOneDrone (missionName 1) ["A"]).1 = true ∧
    findMission (assign_mission coordOneDrone (missionName 1) ["A"]).2
        (missionName 1) =
      some { missionOne with assigned_drones := ["A"], status := "active" } ∧
    (assign_mission coordOneDrone (missionName 1) ["A"]).2.drones =
      coordOneDrone.drones.map (fun d =>
        if (["A"] : List String).contains d.drone_id then
          { d with task := missionOne.mission_type }
        else d) ∧
    (assign_mission coordOneDrone (missionName 1) ["A"]).2.missions =
      coordOneDrone.missions.map (fun m2 =>
        if m2.mission_id == missionName 1 then
          { m2 with assigned_drones := ["A"], status := "active" }
        else m2) :=
  (assign_mission_atomic coordOneDrone (missionName 1) ["A"]).2.2 missionOne
    (by decide) (by decide)

/-- C5: `complete_mission` fails only on an unknown mission id (state
exactly unchanged); on a known mission it returns `true`, sets that
mission's status to "completed" (keeping its `assigned_drones`), and sets
`task = idle` for exactly the registered vehicles whose id is in the
mission's `assigned_drones` — ids that were unregistered in the interim
are skipped silently, never failing the completion. -/
theorem complete_mission_resets_tasks (c : Coordinator) (mid : String) :
    (findMission c mid = none → complete_mission c mid = (false, c)) ∧
    (∀ m, findMission c mid = some m →
      (complete_mission c mid).1 = true ∧
      findMission (complete_mission c mid).2 mid =
        some { m with status := "completed" } ∧
      (complete_mission c mid).2.drones = c.drones.map (fun d =>
        if m.assigned_drones.contains d.drone_id then
          { d with task := TaskType.idle }
        else d)) := by
  constructor
  · intro h; simp [complete_mission, h]
  · intro m hm
    have hstep : complete_mission c mid =
        (true, { c with
          missions := c.missions.map (fun m2 =>
            if m2.mission_id == mid then { m2 with status := "completed" }
            else m2),
          drones := c.drones.map (fun d =>
            if m.assigned_drones.contains d.drone_id then
              { d with task := TaskType.idle }
            else d) }) := by
      simp [complete_mission, hm]
    have hm' : c.missions.find? (fun m2 => m2.mission_id == mid) = some m := hm
    rw [hstep]
    refine ⟨rfl, ?_, rfl⟩
    show (c.missions.map (fun m2 =>
        if m2.mission_id == mid then { m2 with status := "completed" }
        else m2)).find? (fun m2 => m2.mission_id == mid) = _
    rw [find_map_same_id c.missions mid (fun m2 =>
        { m2 with status := "completed" }) (fun m2 => rfl), hm']
    rfl

/-- Witness for C5: completing the active `missionOneActive` in
`coordOneActive` (vehicle "A" still registered) succeeds and frees "A". -/
theorem complete_mission_resets_tasks_witness :
    (complete_mission coordOneActive (missionName 1)).1 = true ∧
    findMission (complete_mission coordOneActive (missionName 1)).2
        (missionName 1) =
      some { missionOneActive with status := "completed" } ∧
    (complete_mission coordOneActive (missionName 1)).2.drones =
      coordOneActive.drones.map (fun d =>
        if missionOneActive.assigned_drones.contains d.drone_id then
          { d with task := TaskType.idle }
        else d) :=
  (complete_mission_resets_tasks coordOneActive (missionName 1)).2
    missionOneActive (by decide)

/-- The head of a filtered list is the first element satisfying the
predicate. -/
theorem head_of_filter {α : Type} (p : α → Bool) (l : List α) :
    (l.filter p).head? = l.find? p := by
  induction l with
  | nil => rfl
  | cons a t ih =>
    by_cases h : p a = true
    · rw [List.filter_cons_of_pos h, List.find?_cons_of_pos t h]; rfl
    · rw [List.filter_cons_of_neg h, List.find?_cons_of_neg t h, ih]

/-- C7: `auto_assign_mission` fails, leaving the state exactly unchanged,
when the mission id is unknown or no registered vehicle has status "ready"
with task idle; otherwise it assigns exactly the first such vehicle in
registry insertion order: the mission becomes active with that single
vehicle assigned, and that vehicle's `task` becomes the mission's type
(all other vehicles unchanged). -/
theorem auto_assign_first_available (c : Coordinator) (mid : String) :
    (findMission c mid = none → auto_assign_mission c mid = (false, c)) ∧
    (c.drones.find? isAvailable = none → auto_assign_mission c mid = (false, c)) ∧
    (∀ m d0, findMission c mid = some m → c.drones.find? isAvailable = some d0 →
      (auto_assign_mission c mid).1 = true ∧
      findMission (auto_assign_mission c mid).2 mid =
        some { m with assigned_drones := [d0.drone_id], status := "active" } ∧
      (auto_assign_mission c mid).2.drones = c.drones.map (fun d =>
        if [d0.drone_id].contains d.drone_id then { d with task := m.mission_type }
        else d)) := by
  refine ⟨fun h => by simp [auto_assign_mission, h], ?_, ?_⟩
  · intro h
    cases hm : findMission c mid with
    | none => simp [auto_assign_mission, hm]
    | some m =>
      have hnil : c.drones.filter isAvailable = [] :=
        List.filter_eq_nil_iff.mpr (List.find?_eq_none.mp h)
      simp [auto_assign_mission, hm, hnil]
  · intro m d0 hm hd
    have hhead : (c.drones.filter isAvailable).head? = some d0 := by
      rw [head_of_filter]; exact hd
    obtain ⟨rest, hrest⟩ : ∃ rest, c.drones.filter isAvailable = d0 :: rest := by
      cases hf : c.drones.filter isAvailable with
      | nil => rw [hf] at hhead; cases hhead
      | cons b r =>
        rw [hf] at hhead
        obtain rfl : b = d0 := by simpa using hhead
        exact ⟨r, rfl⟩
    have hmem : d0 ∈ c.drones := by
      have hmf : d0 ∈ c.drones.filter isAvailable := by rw [hrest]; simp
      exact List.mem_of_mem_filter hmf
    have hhas : hasDrone c d0.drone_id = true :=
      List.any_eq_true.mpr ⟨d0, hmem, by simp⟩
    have hall : ([d0.drone_id] : List String).all (fun v => hasDrone c v) = true := by
      simp [hhas]
    have hstep : auto_assign_mission c mid = assign_mission c mid [d0.drone_id] := by
      simp [auto_assign_mission, hm, hrest]
    have hm' : c.missions.find? (fun m2 => m2.mission_id == mid) = some m := hm
    rw [hstep, assign_mission_found c mid [d0.drone_id] m hm hall]
    refine ⟨rfl, ?_, rfl⟩
    show (c.missions.map (fun m2 =>
        if m2.mission_id == mid then
          { m2 with assigned_drones := [d0.drone_id], status := "active" }
        else m2)).find? (fun m2 => m2.mission_id == mid) = _
    rw [find_map_same_id c.missions mid (fun m2 =>
        { m2 with assigned_drones := [d0.drone_id], status := "active" })
        (fun m2 => rfl), hm']
    rfl

/-- Witness for C7: auto-assigning `missionOne` in `coordOneDrone`, where
"A" is ready and idle, picks "A". -/
theorem auto_assign_first_available_witness :
    (auto_assign_mission coordOneDrone (missionName 1)).1 = true ∧
    findMission (auto_assign_mission coordOneDrone (missionName 1)).2
        (missionName 1) =
      some { missionOne with
             assigned_drones := [(droneAt ("A") (0, 0, 0)).drone_id],
             status := "active" } ∧
    (auto_assign_mission coordOneDrone (missionName 1)).2.drones =
      coordOneDrone.drones.map (fun d =>
        if [(droneAt ("A") (0, 0, 0)).drone_id].contains d.drone_id then
          { d with task := missionOne.mission_type }
        else d) :=
  (auto_assign_first_available coordOneDrone (missionName 1)).2.2 missionOne
    (droneAt ("A") (0, 0, 0)) (by decide) (by decide)

/-- `assign_mission` never changes the number of registered drones or the
configured fleet size. -/
theorem assign_mission_size (c : Coordinator) (mid : String) (ids : List String) :
    (assign_mission c mid ids).2.drones.length = c.drones.length ∧
    (assign_mission c mid ids).2.max_fleet_size = c.max_fleet_size := by
  cases hm : findMission c mid with
  | none => simp [assign_mission, hm]
  | some m =>
    by_cases h2 : ids.all (fun v => hasDrone c v) = true
    · simp [assign_mission, hm, h2]
    · simp [assign_mission, hm, h2]

/-- `register_drone` keeps the fleet within the configured maximum. -/
theorem register_drone_bound (c : Coordinator) (id : String) (pos : ℚ × ℚ × ℚ)
    (caps : List String) (now : ℚ) (h : c.drones.length ≤ c.max_fleet_size) :
    (register_drone c id pos caps now).2.drones.length ≤
      (register_drone c id pos caps now).2.max_fleet_size := by
  unfold register_drone
  by_cases h1 : hasDrone c id = true
  · simp [h1, h]
  · by_cases h2 : c.max_fleet_size ≤ c.drones.length
    · simp [h1, h2, h]
    · simp [h1, h2]
      omega

/-- Every public operation preserves the fleet-size bound. -/
theorem applyOp_preserves_bound (c : Coordinator) (op : Op)
    (h : c.drones.length ≤ c.max_fleet_size) :
    (applyOp c op).drones.length ≤ (applyOp c op).max_fleet_size := by
  cases op with
  | register id pos caps now => exact register_drone_bound c id pos caps now h
  | unregister id =>
    unfold applyOp unregister_drone
    by_cases h1 : hasDrone c id = true
    · simp only [h1, if_true]
      exact le_trans (List.length_filter_le _ _) h
    · simp [h1, h]
  | create t b p now => simpa [applyOp, create_mission] using h
  | assign mid ids =>
    have hs := assign_mission_size c mid ids
    show (assign_mission c mid ids).2.drones.length ≤
      (assign_mission c mid ids).2.max_fleet_size
    rw [hs.1, hs.2]; exact h
  | autoAssign mid =>
    show (auto_assign_mission c mid).2.drones.length ≤
      (auto_assign_mission c mid).2.max_fleet_size
    unfold auto_assign_mission
    cases hm : findMission c mid with
    | none => exact h
    | some m =>
      cases hav : (c.drones.filter isAvailable).map (fun d => d.drone_id) with
      | nil => exact h
      | cons v rest =>
        have hs := assign_mission_size c mid [v]
        rw [hs.1, hs.2]; exact h
  | complete mid =>
    show (complete_mission c mid).2.drones.length ≤
      (complete_mission c mid).2.max_fleet_size
    cases hm : findMission c mid with
    | none => simp [complete_mission, hm, h]
    | some m => simp [complete_mission, hm, h]
  | telemetry id pos b st now =>
    unfold applyOp update_drone_state
    by_cases h1 : hasDrone c id = true
    · simp [h1, h]
    · simp [h1, h]

/-- The fleet-size bound is an invariant of arbitrary operation
sequences. -/
theorem run_preserves_bound (ops : List Op) (c : Coordinator)
    (h : c.drones.length ≤ c.max_fleet_size) :
    (run c ops).drones.length ≤ (run c ops).max_fleet_size := by
  induction ops generalizing c with
  | nil => exact h
  | cons op t ih =>
    show (run (applyOp c op) t).drones.length ≤
      (run (applyOp c op) t).max_fleet_size
    exact ih (applyOp c op) (applyOp_preserves_bound c op h)

/-- C6: starting from any state within the configured maximum (so in
particular from the empty initial state), every reachable state holds at
most `max_fleet_size` vehicles; registering when the fleet is full fails
with the state exactly unchanged, and registering an id that is already
present fails with the state exactly unchanged (the existing record is
untouched). -/
theorem fleet_capacity (c0 : Coordinator) (ops : List Op)
    (h0 : c0.drones.length ≤ c0.max_fleet_size) :
    (run c0 ops).drones.length ≤ (run c0 ops).max_fleet_size ∧
    (∀ id pos caps now,
      (run c0 ops).max_fleet_size ≤ (run c0 ops).drones.length →
      register_drone (run c0 ops) id pos caps now = (false, run c0 ops)) ∧
    (∀ id pos caps now, hasDrone (run c0 ops) id = true →
      register_drone (run c0 ops) id pos caps now = (false, run c0 ops)) := by
  refine ⟨run_preserves_bound ops c0 h0, ?_, ?_⟩
  · intro id pos caps now hfull
    unfold register_drone
    by_cases h1 : hasDrone (run c0 ops) id = true
    · simp [h1]
    · simp [h1, hfull]
  · intro id pos caps now h1
    unfold register_drone
    simp [h1]

/-- Witness for C6: with `max_fleet_size = 1` and "A" registered, the
fleet is full, so registering "B" fails and changes nothing. -/
theorem fleet_capacity_witness :
    register_drone (run coordCapOne opsCapOne) ("B") (0, 0, 0) [] 0 =
      (false, run coordCapOne opsCapOne) :=
  (fleet_capacity coordCapOne opsCapOne (by decide)).2.1 ("B") (0, 0, 0) [] 0
    (by decide)

/-- C3 counterexample: the state reached from the initial coordinator by
register "A"; create survey mission; assign it to "A"; create patrol
mission; assign it to "A"; complete the patrol mission.  Vehicle "A" ends
with `task = idle` while the survey mission is still "active" and still
lists "A" in `assigned_drones`, so the claimed mutual-consistency
invariant fails on a reachable state. -/
theorem task_consistency_violated :
    taskConsistent (run initCoordinator opsReassign) = false := by decide

/-- C3 (as amended): the two mutating code paths do update a vehicle's
`task` and a mission's `assigned_drones` together: a successful
`assign_mission` makes the mission active with exactly the given list and
sets exactly the listed registered vehicles' tasks to the mission type,
and a successful `complete_mission` marks the mission completed and
resets exactly its listed, still-registered vehicles to idle.  The global
invariant claimed by the spec, however, does not hold of all reachable
states (see the counterexample): re-assigning a vehicle to a second
mission leaves the first mission active and still listing it. -/
theorem task_membership_updated_together (c : Coordinator) (mid : String)
    (ids : List String) (m : Mission) :
    (findMission c mid = some m → ids.all (fun v => hasDrone c v) = true →
      findMission (assign_mission c mid ids).2 mid =
        some { m with assigned_drones := ids, status := "active" } ∧
      (assign_mission c mid ids).2.drones = c.drones.map (fun d =>
        if ids.contains d.drone_id then { d with task := m.mission_type }
        else d)) ∧
    (findMission c mid = some m →
      findMission (complete_mission c mid).2 mid =
        some { m with status := "completed" } ∧
      (complete_mission c mid).2.drones = c.drones.map (fun d =>
        if m.assigned_drones.contains d.drone_id then
          { d with task := TaskType.idle }
        else d)) := by
  constructor
  · intro hm hall
    have hm' : c.missions.find? (fun m2 => m2.mission_id == mid) = some m := hm
    rw [assign_mission_found c mid ids m hm hall]
    refine ⟨?_, rfl⟩
    show (c.missions.map (fun m2 =>
        if m2.mission_id == mid then
          { m2 with assigned_drones := ids, status := "active" }
        else m2)).find? (fun m2 => m2.mission_id == mid) = _
    rw [find_map_same_id c.missions mid (fun m2 =>
        { m2 with assigned_drones := ids, status := "active" })
        (fun m2 => rfl), hm']
    rfl
  · intro hm
    have hm' : c.missions.find? (fun m2 => m2.mission_id == mid) = some m := hm
    have hstep : complete_mission c mid =
        (true, { c with
          missions := c.missions.map (fun m2 =>
            if m2.mission_id == mid then { m2 with status := "completed" }
            else m2),
          drones := c.drones.map (fun d =>
            if m.assigned_drones.contains d.drone_id then
              { d with task := TaskType.idle }
            else d) }) := by
      simp [complete_mission, hm]
    rw [hstep]
    refine ⟨?_, rfl⟩
    show (c.missions.map (fun m2 =>
        if m2.mission_id == mid then { m2 with status := "completed" }
        else m2)).find? (fun m2 => m2.mission_id == mid) = _
    rw [find_map_same_id c.missions mid (fun m2 =>
        { m2 with status := "completed" }) (fun m2 => rfl), hm']
    rfl

/-- Witness for C3 (amended): assigning `missionOne` to "A" in
`coordOneDrone`, and completing `missionOneActive` in `coordOneActive`. -/
theorem task_membership_updated_together_witness :
    (findMission (assign_mission coordOneDrone (missionName 1) ["A"]).2
        (missionName 1) =
      some { missionOne with assigned_drones := ["A"], status := "active" } ∧
     (assign_mission coordOneDrone (missionName 1) ["A"]).2.drones =
      coordOneDrone.drones.map (fun d =>
        if (["A"] : List String).contains d.drone_id then
          { d with task := missionOne.mission_type }
        else d)) ∧
    (findMission (complete_mission coordOneActive (missionName 1)).2
        (missionName 1) =
      some { missionOneActive with status := "completed" } ∧
     (complete_mission coordOneActive (missionName 1)).2.drones =
      coordOneActive.drones.map (fun d =>
        if missionOneActive.assigned_drones.contains d.drone_id then
          { d with task := TaskType.idle }
        else d)) :=
  ⟨(task_membership_updated_together coordOneDrone (missionName 1) ["A"]
      missionOne).1 (by decide) (by decide),
   (task_membership_updated_together coordOneActive (missionName 1) []
      missionOneActive).2 (by decide)⟩

/-- C2: with "A" and "B" registered at the same position, their squared
separation is 0 — strictly below the squared default threshold 10² — yet
`check_collision_risk` reports no pair at all: the source's guard
`if distance and distance < self.min_drone_separation` treats the float
`0.0` as falsy (it is written as a `None` check), so the maximally close
pair is silently dropped. -/
theorem zero_separation_pair_not_reported :
    check_collision_risk samePosPair = [] ∧
    calculate_separation_sq samePosPair ("A") ("B") = some 0 ∧
    (0 : ℚ) < samePosPair.min_separation * samePosPair.min_separation := by
  have h1 : findDrone samePosPair ("A") = some (droneAt ("A") (40, -75, 0)) := by
    decide
  have h2 : findDrone samePosPair ("B") = some (droneAt ("B") (40, -75, 0)) := by
    decide
  have hsep : calculate_separation_sq samePosPair ("A") ("B") = some 0 := by
    simp [calculate_separation_sq, h1, h2, droneAt, sepSq]
  refine ⟨?_, hsep, by norm_num [samePosPair]⟩
  simp [check_collision_risk, riskPairs, droneAt, hsep]

/-- C8 counterexample: for the input list ["A", "A"] (N = 2) on bounds
(0, 3, 0, 2), the claim places vehicle 1 — the first input entry, "A" —
at latitude `minLat + 1·step = 1`; the code returns the single entry
"A" ↦ (2, 1), the slot of the duplicate's last occurrence, so the claimed
placement (and one-target-per-input-vehicle count) fails. -/
theorem coverage_duplicate_id_shifted :
    ¬ (List.lookup ("A") (optimize_coverage (0, 3, 0, 2) ["A", "A"]) =
        some ((0 : ℚ) + 1 * ((3 - 0) / (2 + 1)), (0 + 2) / 2)) := by
  norm_num [optimize_coverage, dictInsert, List.enum, List.enumFrom, List.lookup]

/-- Inserting a key not present in the dict appends it. -/
theorem dictInsert_fresh (m : List (String × ℚ × ℚ)) (k : String) (v : ℚ × ℚ)
    (h : ∀ p ∈ m, p.1 ≠ k) : dictInsert m k v = m ++ [(k, v)] := by
  induction m with
  | nil => rfl
  | cons a t ih =>
    obtain ⟨k0, v0⟩ := a
    have h1 : (k0 == k) = false :=
      beq_eq_false_iff_ne.mpr (h (k0, v0) (by simp))
    simp only [dictInsert, h1, Bool.false_eq_true, if_false, List.cons_append]
    rw [ih (fun p hp => h p (List.mem_cons_of_mem _ hp))]

/-- Folding `dictInsert` over pairwise-distinct fresh keys appends them in
order. -/
theorem foldl_dictInsert_fresh (f : ℕ × String → ℚ × ℚ) (l : List (ℕ × String)) :
    ∀ acc : List (String × ℚ × ℚ),
      (l.map Prod.snd).Nodup →
      (∀ p ∈ acc, ∀ q ∈ l, p.1 ≠ q.2) →
      l.foldl (fun a iv => dictInsert a iv.2 (f iv)) acc =
        acc ++ l.map (fun iv => (iv.2, f iv)) := by
  induction l with
  | nil => intro acc _ _; simp
  | cons a rest ih =>
    intro acc hnd hacc
    obtain ⟨i, k⟩ := a
    rw [List.map_cons] at hnd
    have hcons := List.nodup_cons.mp hnd
    have hknotin : k ∉ rest.map Prod.snd := hcons.1
    have hnd' : (rest.map Prod.snd).Nodup := hcons.2
    simp only [List.foldl_cons]
    rw [dictInsert_fresh acc k (f (i, k))
        (fun p hp => hacc p hp (i, k) (by simp))]
    rw [ih (acc ++ [(k, f (i, k))]) hnd' ?_]
    · simp
    · intro p hp q hq
      rcases List.mem_append.mp hp with hp1 | hp2
      · exact hacc p hp1 q (List.mem_cons_of_mem _ hq)
      · have hpk : p.1 = k := by
          simp at hp2; rw [hp2]
        rw [hpk]
        intro hkq
        exact hknotin (hkq ▸ List.mem_map_of_mem Prod.snd hq)

/-- C8 (as amended): for a list of N pairwise-distinct vehicle ids,
`optimize_coverage` returns exactly one target per vehicle, in input
order, placing vehicle i (0-based enumeration, so the claim's 1-indexed
vehicle i+1) at latitude `minLat + (i+1)·(maxLat−minLat)/(N+1)` and
longitude `(minLon+maxLon)/2`, and returns the empty mapping for N = 0.
With duplicate ids the dict collapses the entries and the placement
follows the last occurrence (see the counterexample). -/
theorem coverage_places_by_index (bounds : ℚ × ℚ × ℚ × ℚ) (ids : List String)
    (h : ids.Nodup) :
    optimize_coverage bounds ids = ids.enum.map (fun iv =>
      (iv.2, (bounds.1 + ((iv.1 : ℚ) + 1) *
        ((bounds.2.1 - bounds.1) / ((ids.length : ℚ) + 1)),
       (bounds.2.2.1 + bounds.2.2.2) / 2))) := by
  by_cases h0 : ids.length = 0
  · have hnil : ids = [] := List.length_eq_zero.mp h0
    subst hnil; rfl
  · have hmain := foldl_dictInsert_fresh
      (fun iv => (bounds.1 + ((iv.1 : ℚ) + 1) *
          ((bounds.2.1 - bounds.1) / ((ids.length : ℚ) + 1)),
        (bounds.2.2.1 + bounds.2.2.2) / 2))
      ids.enum []
      (by rw [List.enum_map_snd]; exact h)
      (fun p hp => absurd hp (List.not_mem_nil p))
    simp only [optimize_coverage, if_neg h0]
    simpa using hmain

/-- Witness for C8: two distinct ids on bounds (0, 3, 0, 2). -/
theorem coverage_places_by_index_witness :
    optimize_coverage (0, 3, 0, 2) ["A", "B"] =
      (["A", "B"] : List String).enum.map (fun iv =>
        (iv.2, ((0 : ℚ) + ((iv.1 : ℚ) + 1) * ((3 - 0) / (((2 : ℕ) : ℚ) + 1)),
         ((0 : ℚ) + 2) / 2))) :=
  coverage_places_by_index (0, 3, 0, 2) ["A", "B"] (by decide)

end TerraWing
